import Mathlib

/-!
Shallow embedding of the Aivta text-adventure engine
(`src/services/text-game/game_engine.py`) and of the AI agent's LLM
service (`src/services/ai-agent/core/llm_service.py`), with proofs of
the specification's claims about them.

Modelling conventions:
* Python `dict`s become association lists (`Dict`) with first-match
  lookup and in-place replacement on existing keys, mirroring Python's
  insertion-order semantics.
* A Python function that may raise an uncaught exception (notably a
  `KeyError` from `self.rooms[...]` / `self.sessions[...]`) returns
  `Option` here, `none` marking the exception.
* `async` methods carry no concurrency in the source beyond sequential
  awaiting, so they are plain state transformers `AdventureGame → ...`.
* Nondeterministic inputs (`uuid.uuid4()`, timestamps) are passed in as
  arguments.
-/

namespace Aivta

/-- Association-list model of a Python `dict` with string keys. -/
abbrev Dict (α : Type) := List (String × α)

/-- Model of `d[k]` as a total function: the first binding of `k`, if any. -/
def Dict.lookup {α : Type} : Dict α → String → Option α
  | [], _ => none
  | (k, v) :: d, k' => if k' = k then some v else Dict.lookup d k'

/-- Model of `d[k] = v`: replace the first binding of `k` in place, else append
(Python dicts keep the original insertion position on overwrite). -/
def Dict.insert {α : Type} : Dict α → String → α → Dict α
  | [], k, v => [(k, v)]
  | (k', v') :: d, k, v =>
    if k = k' then (k, v) :: d else (k', v') :: Dict.insert d k v

/-- The `Room` dataclass of `game_engine.py`. -/
structure Room where
  name : String
  description : String
  exits : Dict String
  items : List String
  visited : Bool := false
deriving DecidableEq, Repr

/-- The `Item` dataclass of `game_engine.py`. -/
structure Item where
  name : String
  description : String
  portable : Bool := true
  use_message : String := ""
deriving DecidableEq, Repr

/-- The `Player` dataclass of `game_engine.py`.  Scores and move counts
are only ever incremented, so Python's unbounded `int` is `Nat` here. -/
structure Player where
  current_room : String
  inventory : List String
  score : Nat := 0
  moves : Nat := 0
deriving DecidableEq, Repr

/-- The `GameSession` dataclass.  `player` is `Optional` in the source
but every construction site supplies it, and `execute_command`
dereferences it unconditionally, so it is required here. -/
structure GameSession where
  session_id : String
  game_type : String
  status : String
  created_at : String
  last_action : Option String := none
  player : Player
deriving DecidableEq, Repr

/-- The mutable state of one `AdventureGame` instance.  Note that
`rooms` and `items` are fields of the *game object*, not of a session:
all sessions read and write the same `rooms` table. -/
structure AdventureGame where
  sessions : Dict GameSession
  rooms : Dict Room
  items : Dict Item
deriving DecidableEq, Repr

/-- The dictionary returned by `AdventureGame.get_game_state`. -/
structure GameState where
  session_id : String
  current_location : String
  description : String
  inventory : List String
  score : Nat
  moves : Nat
  game_over : Bool
  victory : Bool
deriving DecidableEq, Repr

/-- The dictionary returned by `AdventureGame.execute_command`.
`game_state := none` models the empty dict `{}` of the
session-not-found branch. -/
structure CommandResult where
  response : String
  game_state : Option GameState
  valid_commands : List String
  error : Option String
deriving DecidableEq, Repr

/-- Model of `AdventureGame._create_game_world`: rooms table. -/
def create_game_world_rooms : Dict Room :=
  [ ("start",
     { name := "Forest Clearing"
       description := "You are in a small clearing in a dark forest. Tall trees surround you on all sides. There is a path leading north to what appears to be a cave entrance."
       exits := [("north", "cave_entrance"), ("east", "forest_path")]
       items := ["stick"] }),
    ("cave_entrance",
     { name := "Cave Entrance"
       description := "You stand before a dark cave entrance. The opening is large enough to walk through, but you can't see what lies beyond. A cold breeze flows from within."
       exits := [("south", "start"), ("north", "cave_interior")]
       items := ["torch"] }),
    ("cave_interior",
     { name := "Cave Interior"
       description := "Inside the cave, your torch illuminates rough stone walls. You can hear the sound of dripping water echoing from deeper within. There's a passage leading further north."
       exits := [("south", "cave_entrance"), ("north", "treasure_room")]
       items := [] }),
    ("treasure_room",
     { name := "Treasure Room"
       description := "You've discovered a small chamber filled with ancient treasures! Gold coins glitter in the torchlight, and there's an ornate chest in the center of the room."
       exits := [("south", "cave_interior")]
       items := ["gold_coins", "treasure_chest"] }),
    ("forest_path",
     { name := "Forest Path"
       description := "A winding path through the forest. The trees are less dense here, and you can see sunlight filtering through the canopy above."
       exits := [("west", "start"), ("east", "forest_exit")]
       items := ["berries"] }),
    ("forest_exit",
     { name := "Forest Exit"
       description := "You've reached the edge of the forest. Beyond lies a vast open plain stretching to the horizon. You've successfully navigated the forest!"
       exits := [("west", "forest_path")]
       items := [] }) ]

/-- Model of `AdventureGame._create_game_world`: items table. -/
def create_game_world_items : Dict Item :=
  [ ("stick",
     { name := "stick"
       description := "A sturdy wooden stick. It might be useful as a tool or weapon."
       portable := true
       use_message := "You wave the stick around. It's quite sturdy!" }),
    ("torch",
     { name := "torch"
       description := "A burning torch that provides light in dark places."
       portable := true
       use_message := "The torch burns brightly, illuminating your surroundings." }),
    ("gold_coins",
     { name := "gold coins"
       description := "A handful of ancient gold coins. They're quite valuable!"
       portable := true
       use_message := "The gold coins jingle pleasantly in your hands." }),
    ("treasure_chest",
     { name := "treasure chest"
       description := "An ornate wooden chest bound with iron. It's locked, but perhaps you could open it..."
       portable := false
       use_message := "The chest is locked tight. You need a key to open it." }),
    ("berries",
     { name := "berries"
       description := "Sweet forest berries. They look safe to eat."
       portable := true
       use_message := "You eat the berries. They're delicious and restore your energy!" }) ]

/-- Model of `AdventureGame._create_game_world` applied to a game object. -/
def create_game_world (g : AdventureGame) : AdventureGame :=
  { g with rooms := create_game_world_rooms, items := create_game_world_items }

/-- A game object right after `__init__` plus `initialize()` (the saves
directory creation is file-system I/O and carries no game state). -/
def new_game : AdventureGame :=
  create_game_world { sessions := [], rooms := [], items := [] }

/-- Model of `AdventureGame.create_session`.  The fresh uuid and the creation
timestamp are nondeterministic inputs, passed in here. -/
def create_session (g : AdventureGame) (session_id created_at : String)
    (game_type : String) : AdventureGame × GameSession :=
  let session : GameSession :=
    { session_id := session_id
      game_type := game_type
      status := "active"
      created_at := created_at
      player := { current_room := "start", inventory := [], score := 0, moves := 0 } }
  ({ g with sessions := Dict.insert g.sessions session_id session }, session)

/-- Model of `AdventureGame.get_game_state`.  Outer `none` = uncaught `KeyError`
(current room missing from the rooms table); inner `none` = the Python
`None` returned for an unknown session id. -/
def get_game_state (g : AdventureGame) (session_id : String) :
    Option (Option GameState) :=
  match Dict.lookup g.sessions session_id with
  | none => some none
  | some session =>
    match Dict.lookup g.rooms session.player.current_room with
    | none => none
    | some current_room =>
      some (some
        { session_id := session_id
          current_location := current_room.name
          description := current_room.description
          inventory := session.player.inventory
          score := session.player.score
          moves := session.player.moves
          game_over := session.status == "completed"
          victory := session.status == "won" })

/-- Model of `AdventureGame._look_around`. -/
def look_around (g : AdventureGame) (session_id : String) : Option String :=
  match Dict.lookup g.sessions session_id with
  | none => none
  | some session =>
    match Dict.lookup g.rooms session.player.current_room with
    | none => none
    | some current_room =>
      let response := current_room.name ++ "\n" ++ current_room.description
      let response :=
        if current_room.items ≠ [] then
          response ++ "\n\nYou can see: " ++ String.intercalate ", " current_room.items
        else response
      let response :=
        if current_room.exits ≠ [] then
          response ++ "\n\nExits: " ++
            String.intercalate ", " (current_room.exits.map Prod.fst)
        else response
      some response

/-- Model of `AdventureGame._move_player`. -/
def move_player (g : AdventureGame) (session_id direction : String) :
    Option (AdventureGame × String) :=
  match Dict.lookup g.sessions session_id with
  | none => none
  | some session =>
    match Dict.lookup g.rooms session.player.current_room with
    | none => none
    | some current_room =>
      match Dict.lookup current_room.exits direction with
      | none => some (g, "You can't go " ++ direction ++ " from here.")
      | some new_room_name =>
        match Dict.lookup g.rooms new_room_name with
        | none => none
        | some new_room =>
          let player := session.player
          let player := { player with current_room := new_room_name, score := player.score + 5 }
          let g :=
            { g with
              sessions := Dict.insert g.sessions session_id { session with player := player }
              rooms := Dict.insert g.rooms new_room_name { new_room with visited := true } }
          match look_around g session_id with
          | none => none
          | some look => some (g, "You go " ++ direction ++ ".\n\n" ++ look)

/-- Model of `AdventureGame._examine_object`. -/
def examine_object (g : AdventureGame) (session_id target : String) : Option String :=
  match Dict.lookup g.sessions session_id with
  | none => none
  | some session =>
    match Dict.lookup g.rooms session.player.current_room with
    | none => none
    | some current_room =>
      if target ∈ current_room.items ∨ target ∈ session.player.inventory then
        match Dict.lookup g.items target with
        | some item => some item.description
        | none => some ("You see nothing special about the " ++ target ++ ".")
      else
        some ("You don't see a " ++ target ++ " here.")

/-- Model of `AdventureGame._take_item`. -/
def take_item (g : AdventureGame) (session_id item_name : String) :
    Option (AdventureGame × String) :=
  match Dict.lookup g.sessions session_id with
  | none => none
  | some session =>
    match Dict.lookup g.rooms session.player.current_room with
    | none => none
    | some current_room =>
      if item_name ∉ current_room.items then
        some (g, "You don't see a " ++ item_name ++ " here.")
      else if (Dict.lookup g.items item_name).any (fun item => !item.portable) then
        some (g, "You can't take the " ++ item_name ++ ".")
      else
        let player := session.player
        let player :=
          { player with
            inventory := player.inventory ++ [item_name]
            score := player.score + 10 }
        let g :=
          { g with
            rooms := Dict.insert g.rooms session.player.current_room
              { current_room with items := current_room.items.erase item_name }
            sessions := Dict.insert g.sessions session_id { session with player := player } }
        some (g, "You take the " ++ item_name ++ ".")

/-- Model of `AdventureGame._drop_item`. -/
def drop_item (g : AdventureGame) (session_id item_name : String) :
    Option (AdventureGame × String) :=
  match Dict.lookup g.sessions session_id with
  | none => none
  | some session =>
    match Dict.lookup g.rooms session.player.current_room with
    | none => none
    | some current_room =>
      if item_name ∉ session.player.inventory then
        some (g, "You don't have a " ++ item_name ++ ".")
      else
        let player := session.player
        let player := { player with inventory := player.inventory.erase item_name }
        let g :=
          { g with
            rooms := Dict.insert g.rooms session.player.current_room
              { current_room with items := current_room.items ++ [item_name] }
            sessions := Dict.insert g.sessions session_id { session with player := player } }
        some (g, "You drop the " ++ item_name ++ ".")

/-- Model of `AdventureGame._use_item` (reads the session only; no room lookup,
no state change). -/
def use_item (g : AdventureGame) (session_id item_name : String) : Option String :=
  match Dict.lookup g.sessions session_id with
  | none => none
  | some session =>
    if item_name ∉ session.player.inventory then
      some ("You don't have a " ++ item_name ++ ".")
    else
      match Dict.lookup g.items item_name with
      | some item => some item.use_message
      | none => some ("You can't use the " ++ item_name ++ ".")

/-- Model of `AdventureGame._show_inventory`. -/
def show_inventory (g : AdventureGame) (session_id : String) : Option String :=
  match Dict.lookup g.sessions session_id with
  | none => none
  | some session =>
    if session.player.inventory = [] then
      some "You are carrying nothing."
    else
      some ("You are carrying: " ++ String.intercalate ", " session.player.inventory)

/-- Model of `AdventureGame._show_help`: the static help text (a triple-quoted
Python literal, indentation included). -/
def show_help : String :=
  "Available commands:\n        - go [direction] / [direction] - Move in a direction (north, south, east, west)\n        - look / examine [object] - Look around or examine something\n        - take [item] - Pick up an item\n        - drop [item] - Drop an item\n        - use [item] - Use an item\n        - inventory / i - Show your inventory\n        - help / ? - Show this help message\n        \n        Common directions: north (n), south (s), east (e), west (w)\n        "

/-- Model of `AdventureGame.get_valid_commands`. -/
def get_valid_commands (g : AdventureGame) (session_id : String) :
    Option (List String) :=
  match Dict.lookup g.sessions session_id with
  | none => some []
  | some session =>
    match Dict.lookup g.rooms session.player.current_room with
    | none => none
    | some current_room =>
      some (["look", "inventory", "help"]
        ++ current_room.exits.flatMap (fun e => ["go " ++ e.1, e.1])
        ++ current_room.items.flatMap (fun item => ["take " ++ item, "examine " ++ item])
        ++ session.player.inventory.flatMap
             (fun item => ["drop " ++ item, "use " ++ item, "examine " ++ item]))

/-- Model of `AdventureGame._execute_verb`.  The source fetches
`self.rooms[player.current_room]` before dispatching (and never uses
it), so an invalid current room raises there; the first room lookup
below models exactly that. -/
def execute_verb (g : AdventureGame) (session_id verb : String) (args : List String) :
    Option (AdventureGame × String) :=
  match Dict.lookup g.sessions session_id with
  | none => none
  | some session =>
    match Dict.lookup g.rooms session.player.current_room with
    | none => none
    | some _ =>
      if (verb = "go" ∨ verb = "move" ∨ verb = "walk") ∧ args ≠ [] then
        move_player g session_id (args.headD "")
      else if verb = "north" ∨ verb = "south" ∨ verb = "east" ∨ verb = "west" ∨
          verb = "n" ∨ verb = "s" ∨ verb = "e" ∨ verb = "w" then
        let direction :=
          match verb with
          | "n" => "north"
          | "s" => "south"
          | "e" => "east"
          | "w" => "west"
          | v => v
        move_player g session_id direction
      else if verb = "look" ∨ verb = "examine" ∨ verb = "l" then
        if args ≠ [] then
          (examine_object g session_id (String.intercalate " " args)).map (fun r => (g, r))
        else
          (look_around g session_id).map (fun r => (g, r))
      else if verb = "inventory" ∨ verb = "i" then
        (show_inventory g session_id).map (fun r => (g, r))
      else if verb = "take" ∨ verb = "get" ∨ verb = "pick" then
        if args ≠ [] then
          take_item g session_id (String.intercalate " " args)
        else some (g, "Take what?")
      else if verb = "drop" ∨ verb = "put" then
        if args ≠ [] then
          drop_item g session_id (String.intercalate " " args)
        else some (g, "Drop what?")
      else if verb = "use" ∨ verb = "activate" then
        if args ≠ [] then
          (use_item g session_id (String.intercalate " " args)).map (fun r => (g, r))
        else some (g, "Use what?")
      else if verb = "help" ∨ verb = "?" then
        some (g, show_help)
      else
        some (g, "I don't understand '" ++ verb ++ "'. Type 'help' for a list of commands.")

/-- Python `str.lower()`.  ASCII case mapping; the engine only ever
lowercases typed commands. -/
def to_lower (s : String) : String :=
  String.mk (s.data.map Char.toLower)

/-- Python `str.strip()` over whitespace. -/
def str_trim (s : String) : String :=
  String.mk (((s.data.dropWhile Char.isWhitespace).reverse.dropWhile
    Char.isWhitespace).reverse)

/-- Helper for `split_ws`: cut a character list at whitespace runs,
accumulating the current token in reverse. -/
def tokenize_ws : List Char → List Char → List (List Char)
  | acc, [] => if acc = [] then [] else [acc.reverse]
  | acc, c :: cs =>
    if c.isWhitespace then
      if acc = [] then tokenize_ws [] cs else acc.reverse :: tokenize_ws [] cs
    else tokenize_ws (c :: acc) cs

/-- Python `str.split()` (no separator): split on whitespace runs,
dropping empty pieces. -/
def split_ws (s : String) : List String :=
  (tokenize_ws [] s.data).map String.mk

/-- Model of `AdventureGame.execute_command`. -/
def execute_command (g : AdventureGame) (session_id command : String) :
    Option (AdventureGame × CommandResult) :=
  match Dict.lookup g.sessions session_id with
  | none =>
    some (g, { response := "Session not found.", game_state := none,
               valid_commands := [], error := some "Session not found" })
  | some session =>
    if session.status ≠ "active" then
      match get_game_state g session_id with
      | none => none
      | some gs =>
        some (g, { response := "Game is not active.", game_state := gs,
                   valid_commands := [], error := some "Game not active" })
    else
      let command := str_trim (to_lower command)
      match split_ws command with
      | [] =>
        match get_game_state g session_id, get_valid_commands g session_id with
        | some gs, some vc =>
          some (g, { response := "Please enter a command.", game_state := gs,
                     valid_commands := vc, error := some "Empty command" })
        | _, _ => none
      | verb :: args =>
        match execute_verb g session_id verb args with
        | none => none
        | some (g1, response) =>
          match Dict.lookup g1.sessions session_id with
          | none => none
          | some session1 =>
            let session2 :=
              { session1 with
                player := { session1.player with moves := session1.player.moves + 1 }
                last_action := some command }
            let g2 := { g1 with sessions := Dict.insert g1.sessions session_id session2 }
            if session2.player.current_room = "forest_exit" then
              let session3 :=
                { session2 with
                  status := "won"
                  player := { session2.player with score := session2.player.score + 100 } }
              let g3 := { g2 with sessions := Dict.insert g2.sessions session_id session3 }
              let response :=
                response ++ "\n\nCongratulations! You've successfully completed the adventure!"
              match get_game_state g3 session_id, get_valid_commands g3 session_id with
              | some gs, some vc =>
                some (g3, { response := response, game_state := gs,
                            valid_commands := vc, error := none })
              | _, _ => none
            else
              match get_game_state g2 session_id, get_valid_commands g2 session_id with
              | some gs, some vc =>
                some (g2, { response := response, game_state := gs,
                            valid_commands := vc, error := none })
              | _, _ => none

/-! ### Concrete states used by witnesses and counterexamples -/

/-- A fresh game with one session `s1` just created at the start room. -/
def demo_game : AdventureGame := (create_session new_game "s1" "t0" "adventure").1

/-- The game `demo_game` with a second fresh session `s2`, also at the start room. -/
def demo_game2 : AdventureGame := (create_session demo_game "s2" "t0" "adventure").1

/-- A session `s1` placed in a given room with a given status. -/
def session_at (room : String) (status : String) : GameSession :=
  { session_id := "s1", game_type := "adventure", status := status, created_at := "t0",
    player := { current_room := room, inventory := [], score := 0, moves := 0 } }

/-- A game whose only session `s1` sits in a given room. -/
def game_at (room : String) (status : String) : AdventureGame :=
  { new_game with sessions := [("s1", session_at room status)] }

/-- The session record produced by winning from `forest_path` in one
`east` step (used by the C6 witness). -/
def won_session : GameSession :=
  { session_id := "s1"
    game_type := "adventure"
    status := "won"
    created_at := "t0"
    last_action := some "east"
    player :=
      { current_room := "forest_exit"
        inventory := []
        score := 105
        moves := 1 } }

/-- The game state after a successful `take x` from the current room:
the item leaves the shared room record, enters the inventory, +10
points, move counter bumped, last action recorded. -/
def take_state (g : AdventureGame) (session_id x : String)
    (s : GameSession) (room : Room) : AdventureGame :=
  { g with
    rooms := Dict.insert g.rooms s.player.current_room
      { room with items := room.items.erase x }
    sessions := Dict.insert g.sessions session_id
      { s with
        player :=
          { s.player with
            inventory := s.player.inventory ++ [x]
            score := s.player.score + 10
            moves := s.player.moves + 1 }
        last_action := some (str_trim (to_lower ("take " ++ x))) } }

/-- The game state after `take x` followed by `drop x`: the item is
re-appended to the room's item list, the inventory loses its first
occurrence of `x` again, but the +10 pickup points stay. -/
def drop_state (g : AdventureGame) (session_id x : String)
    (s : GameSession) (room : Room) : AdventureGame :=
  { g with
    rooms := Dict.insert g.rooms s.player.current_room
      { room with items := room.items.erase x ++ [x] }
    sessions := Dict.insert g.sessions session_id
      { s with
        player :=
          { s.player with
            inventory := (s.player.inventory ++ [x]).erase x
            score := s.player.score + 10
            moves := s.player.moves + 1 + 1 }
        last_action := some (str_trim (to_lower ("drop " ++ x))) } }

/-- Iterated round trips for the unbounded-score scenario: each step
executes `east` then `west` on the same session. -/
def east_west_trips (g : AdventureGame) (session_id : String) : Nat → Option AdventureGame
  | 0 => some g
  | n + 1 =>
    match east_west_trips g session_id n with
    | none => none
    | some g' =>
      match execute_command g' session_id "east" with
      | none => none
      | some (g1, _) =>
        match execute_command g1 session_id "west" with
        | none => none
        | some (g2, _) => some g2

/-- The rooms table after at least one east/west round trip from the
start room: `forest_path` and `start` are marked visited. -/
def trip_rooms : Dict Room :=
  Dict.insert
    (Dict.insert create_game_world_rooms "forest_path"
      { name := "Forest Path"
        description := "A winding path through the forest. The trees are less dense here, and you can see sunlight filtering through the canopy above."
        exits := [("west", "start"), ("east", "forest_exit")]
        items := ["berries"]
        visited := true })
    "start"
    { name := "Forest Clearing"
      description := "You are in a small clearing in a dark forest. Tall trees surround you on all sides. There is a path leading north to what appears to be a cave entrance."
      exits := [("north", "cave_entrance"), ("east", "forest_path")]
      items := ["stick"]
      visited := true }

/-- The session-and-rooms state reached during the round-trip scenario,
with symbolic score and move count. -/
def trip_game (score moves : Nat) (la : Option String) (rs : Dict Room) : AdventureGame :=
  { sessions :=
      [("s1",
        { session_id := "s1", game_type := "adventure", status := "active",
          created_at := "t0", last_action := la,
          player := { current_room := "start", inventory := [], score := score, moves := moves } })]
    rooms := rs
    items := create_game_world_items }

/-! ### LLM service (`src/services/ai-agent/core/llm_service.py`)

The provider interactions are external I/O; their outcomes enter the
model as `Except` values, `.error e` meaning the Python call raised an
exception rendered as `e`. -/

/-- Outcomes of the two Ollama HTTP calls made by
`LLMService._generate_ollama_response`: the health probe `GET /`
(`.error` = `httpx.RequestError`, `.ok` = its status code) and the
`POST /api/generate` call (`.ok` = its status code paired with the
`response` field of its JSON body, pre-`strip`). -/
structure OllamaEnv where
  health : Except String Nat
  generate : Except String (Nat × String)

/-- The canned string `_generate_ollama_response` returns whenever the
Ollama interaction fails in any way. -/
def ollama_fallback_message : String :=
  "I'm ready to help you play this text adventure game!"

/-- Model of `LLMService._generate_ollama_response`.  Every exception raised in
its body (connection error, bad health status, bad generate status) is
caught by its own `except` clauses and converted to the canned fallback
string, so the function is total. -/
def generate_ollama_response (env : OllamaEnv) : String :=
  match env.health with
  | .error _ => ollama_fallback_message
  | .ok code =>
    if code ≠ 200 then ollama_fallback_message
    else
      match env.generate with
      | .error _ => ollama_fallback_message
      | .ok (status, body) =>
        if status = 200 then str_trim body else ollama_fallback_message

/-- Provider-selection state of `LLMService.generate_response`:
`configured` is `current_provider == "openai" and self.openai_client`,
and `outcome` is the result of `_generate_openai_response` when it is
consulted (`.error` = that call raised). -/
structure OpenAIState where
  configured : Bool
  outcome : Except String String

/-- Model of `LLMService.generate_response`: try OpenAI when configured; when
that call raises, the `except` clause falls back to Ollama (the
re-`raise` arm is unreachable because `_generate_ollama_response` is
total).  `.error` would mean an exception escaping the method. -/
def generate_response (st : OpenAIState) (env : OllamaEnv) : Except String String :=
  if st.configured then
    match st.outcome with
    | .ok s => .ok s
    | .error _ => .ok (generate_ollama_response env)
  else .ok (generate_ollama_response env)

/-- The dictionary produced by `LLMService.analyze_game_state`. -/
structure Analysis where
  analysis : String
  suggested_action : String
  reasoning : String
deriving DecidableEq, Repr

/-- Python `str.split('\n')`: helper over characters. -/
def split_nl_aux : List Char → List Char → List (List Char)
  | acc, [] => [acc.reverse]
  | acc, c :: cs =>
    if c = '\n' then acc.reverse :: split_nl_aux [] cs
    else split_nl_aux (c :: acc) cs

/-- Python `str.split('\n')`. -/
def split_nl (s : String) : List String :=
  (split_nl_aux [] s.data).map String.mk

/-- Model of `LLMService.analyze_game_state`.  `json_loads` stands for
`json.loads` at this call site: `some` = the response parsed as a JSON
object with the expected fields, `none` = `json.JSONDecodeError`.  The
prompt construction (pure string formatting) has no control-flow
effect and is elided. -/
def analyze_game_state (st : OpenAIState) (env : OllamaEnv)
    (json_loads : String → Option Analysis) : Analysis :=
  match generate_response st env with
  | .ok response =>
    match json_loads response with
    | some parsed => parsed
    | none =>
      { analysis := "Game state analyzed"
        suggested_action := str_trim ((split_nl response).headD "")
        reasoning := response }
  | .error e =>
    { analysis := "Unable to analyze game state"
      suggested_action := "look"
      reasoning := "Error occurred: " ++ e }

/-- Model of `json.loads` on plain English text: the only string parsed in the
total-failure scenario below is `ollama_fallback_message`, which is not
valid JSON, so the parse raises (`none`). -/
def json_loads_plain_text : String → Option Analysis := fun _ => none

/-! ## Dictionary lemmas -/

theorem Dict.lookup_insert_self {α : Type} (d : Dict α) (k : String) (v : α) :
    Dict.lookup (Dict.insert d k v) k = some v := by
  induction d with
  | nil => simp [Dict.insert, Dict.lookup]
  | cons hd tl ih =>
    obtain ⟨k', v'⟩ := hd
    by_cases h : k = k'
    · subst h
      simp [Dict.insert, Dict.lookup]
    · simp [Dict.insert, Dict.lookup, h, ih, Ne.symm h]

theorem Dict.lookup_insert_ne {α : Type} (d : Dict α) (k k' : String) (v : α)
    (h : k' ≠ k) :
    Dict.lookup (Dict.insert d k v) k' = Dict.lookup d k' := by
  induction d with
  | nil => simp [Dict.insert, Dict.lookup, h]
  | cons hd tl ih =>
    obtain ⟨k0, v0⟩ := hd
    by_cases h2 : k = k0
    · subst h2
      simp [Dict.insert, Dict.lookup, h]
    · simp [Dict.insert, Dict.lookup, h2, ih]

theorem Dict.insert_insert_self {α : Type} (d : Dict α) (k : String) (a b : α) :
    Dict.insert (Dict.insert d k a) k b = Dict.insert d k b := by
  induction d with
  | nil => simp [Dict.insert]
  | cons hd tl ih =>
    obtain ⟨k0, v0⟩ := hd
    by_cases h : k = k0 <;> simp [Dict.insert, h, ih]

/-! ## Preservation lemmas: `_execute_verb` never touches a session's
non-`player` fields, nor the player's move counter -/

theorem move_player_session {g g1 : AdventureGame} {session_id direction resp : String}
    {s : GameSession}
    (hs : Dict.lookup g.sessions session_id = some s)
    (h : move_player g session_id direction = some (g1, resp)) :
    ∃ p1 : Player,
      Dict.lookup g1.sessions session_id = some { s with player := p1 } ∧
      p1.moves = s.player.moves := by
  unfold move_player at h
  simp only [hs] at h
  split at h
  · exact Option.noConfusion h
  split at h
  · simp only [Option.some.injEq, Prod.mk.injEq] at h
    obtain ⟨rfl, -⟩ := h
    exact ⟨s.player, hs, rfl⟩
  split at h
  · exact Option.noConfusion h
  split at h
  · exact Option.noConfusion h
  · simp only [Option.some.injEq, Prod.mk.injEq] at h
    obtain ⟨h1, -⟩ := h
    subst h1
    exact ⟨_, Dict.lookup_insert_self _ _ _, rfl⟩

theorem take_item_session {g g1 : AdventureGame} {session_id item_name resp : String}
    {s : GameSession}
    (hs : Dict.lookup g.sessions session_id = some s)
    (h : take_item g session_id item_name = some (g1, resp)) :
    ∃ p1 : Player,
      Dict.lookup g1.sessions session_id = some { s with player := p1 } ∧
      p1.moves = s.player.moves := by
  unfold take_item at h
  simp only [hs] at h
  split at h
  · exact Option.noConfusion h
  split at h
  · simp only [Option.some.injEq, Prod.mk.injEq] at h
    obtain ⟨rfl, -⟩ := h
    exact ⟨s.player, hs, rfl⟩
  split at h
  · simp only [Option.some.injEq, Prod.mk.injEq] at h
    obtain ⟨rfl, -⟩ := h
    exact ⟨s.player, hs, rfl⟩
  · simp only [Option.some.injEq, Prod.mk.injEq] at h
    obtain ⟨h1, -⟩ := h
    subst h1
    exact ⟨_, Dict.lookup_insert_self _ _ _, rfl⟩

theorem drop_item_session {g g1 : AdventureGame} {session_id item_name resp : String}
    {s : GameSession}
    (hs : Dict.lookup g.sessions session_id = some s)
    (h : drop_item g session_id item_name = some (g1, resp)) :
    ∃ p1 : Player,
      Dict.lookup g1.sessions session_id = some { s with player := p1 } ∧
      p1.moves = s.player.moves := by
  unfold drop_item at h
  simp only [hs] at h
  split at h
  · exact Option.noConfusion h
  split at h
  · simp only [Option.some.injEq, Prod.mk.injEq] at h
    obtain ⟨rfl, -⟩ := h
    exact ⟨s.player, hs, rfl⟩
  · simp only [Option.some.injEq, Prod.mk.injEq] at h
    obtain ⟨h1, -⟩ := h
    subst h1
    exact ⟨_, Dict.lookup_insert_self _ _ _, rfl⟩

theorem execute_verb_session {g g1 : AdventureGame} {session_id verb resp : String}
    {args : List String} {s : GameSession}
    (hs : Dict.lookup g.sessions session_id = some s)
    (h : execute_verb g session_id verb args = some (g1, resp)) :
    ∃ p1 : Player,
      Dict.lookup g1.sessions session_id = some { s with player := p1 } ∧
      p1.moves = s.player.moves := by
  unfold execute_verb at h
  simp only [hs] at h
  split at h
  · exact Option.noConfusion h
  · have pure_case : ∀ x : String, some (g, x) = some (g1, resp) →
        ∃ p1 : Player,
          Dict.lookup g1.sessions session_id = some { s with player := p1 } ∧
          p1.moves = s.player.moves := by
      intro x hx
      simp only [Option.some.injEq, Prod.mk.injEq] at hx
      obtain ⟨rfl, -⟩ := hx
      exact ⟨s.player, hs, rfl⟩
    have map_case : ∀ o : Option String,
        Option.map (fun r => (g, r)) o = some (g1, resp) →
        ∃ p1 : Player,
          Dict.lookup g1.sessions session_id = some { s with player := p1 } ∧
          p1.moves = s.player.moves := by
      intro o ho
      rw [Option.map_eq_some'] at ho
      obtain ⟨a, -, ha⟩ := ho
      exact pure_case a (by rw [ha])
    split_ifs at h with h1 h2 h3 h4 h5 h6 h7 h8 h9 h10 h11
    · exact move_player_session hs h
    · exact move_player_session hs h
    · exact map_case _ h
    · exact map_case _ h
    · exact map_case _ h
    · exact take_item_session hs h
    · exact pure_case _ h
    · exact drop_item_session hs h
    · exact pure_case _ h
    · exact map_case _ h
    · exact pure_case _ h
    · exact pure_case _ h
    · exact pure_case _ h

/-- Case analysis of `execute_command` as far as the stored session is
concerned: guard failures leave the game untouched; otherwise the move
counter is bumped and the win check either fires (status `won`, +100
score) or leaves the rest of the session alone. -/
theorem execute_command_session_cases {g g' : AdventureGame}
    {session_id command : String} {s : GameSession} {r : CommandResult}
    (hs : Dict.lookup g.sessions session_id = some s)
    (h : execute_command g session_id command = some (g', r)) :
    ((s.status ≠ "active" ∨ split_ws (str_trim (to_lower command)) = []) ∧ g' = g) ∨
    (s.status = "active" ∧
      ∃ (verb : String) (args : List String) (g1 : AdventureGame)
        (resp : String) (p1 : Player),
        split_ws (str_trim (to_lower command)) = verb :: args ∧
        execute_verb g session_id verb args = some (g1, resp) ∧
        Dict.lookup g1.sessions session_id = some { s with player := p1 } ∧
        p1.moves = s.player.moves ∧
        ((p1.current_room ≠ "forest_exit" ∧
            r.response = resp ∧
            Dict.lookup g'.sessions session_id =
              some { s with
                player := { p1 with moves := p1.moves + 1 }
                last_action := some (str_trim (to_lower command)) }) ∨
         (p1.current_room = "forest_exit" ∧
            r.response
              = resp ++ "\n\nCongratulations! You've successfully completed the adventure!" ∧
            Dict.lookup g'.sessions session_id =
              some { s with
                status := "won"
                player := { p1 with moves := p1.moves + 1, score := p1.score + 100 }
                last_action := some (str_trim (to_lower command)) }))) := by
  unfold execute_command at h
  simp only [hs] at h
  split at h
  -- inactive session: returned game is `g` itself
  · rename_i hne
    split at h
    · exact Option.noConfusion h
    · simp only [Option.some.injEq, Prod.mk.injEq] at h
      exact Or.inl ⟨Or.inl hne, h.1.symm⟩
  · rename_i hne
    have hactive : s.status = "active" := not_not.mp hne
    split at h
    -- empty command: returned game is `g` itself
    · rename_i hsplit
      split at h
      · simp only [Option.some.injEq, Prod.mk.injEq] at h
        exact Or.inl ⟨Or.inr hsplit, h.1.symm⟩
      · exact Option.noConfusion h
    -- dispatched command
    · rename_i verb args hsplit
      cases hv : execute_verb g session_id verb args with
      | none =>
        simp only [hv] at h
        exact Option.noConfusion h
      | some pr =>
        obtain ⟨g1, resp⟩ := pr
        simp only [hv] at h
        obtain ⟨p1, hs1, hm⟩ := execute_verb_session hs hv
        simp only [hs1] at h
        split at h
        -- win check fires
        · rename_i hwin
          split at h
          · simp only [Option.some.injEq, Prod.mk.injEq] at h
            obtain ⟨hg', hr⟩ := h
            refine Or.inr ⟨hactive, verb, args, g1, resp, p1, hsplit, hv, hs1, hm,
              Or.inr ⟨hwin, ?_, ?_⟩⟩
            · rw [← hr]
            · rw [← hg']
              exact Dict.lookup_insert_self _ _ _
          · exact Option.noConfusion h
        -- no win
        · rename_i hwin
          split at h
          · simp only [Option.some.injEq, Prod.mk.injEq] at h
            obtain ⟨hg', hr⟩ := h
            refine Or.inr ⟨hactive, verb, args, g1, resp, p1, hsplit, hv, hs1, hm,
              Or.inl ⟨hwin, ?_, ?_⟩⟩
            · rw [← hr]
            · rw [← hg']
              exact Dict.lookup_insert_self _ _ _
          · exact Option.noConfusion h

/-! ## Claim C1: session isolation of mutable room state (violated) -/

/-- C1: the rooms table is owned by the game object and shared by all
sessions.  With two fresh sessions `s1`, `s2` at the start room,
`take stick` executed in `s1` removes `stick` from the single shared
room record: `s2`'s own session record is untouched (`== true` below),
yet the room item-set and the valid commands `s2` observes change. -/
theorem c1_shared_rooms :
    (Dict.lookup demo_game2.rooms "start").map Room.items = some ["stick"] ∧
    get_valid_commands demo_game2 "s2"
      = some ["look", "inventory", "help", "go north", "north", "go east", "east",
              "take stick", "examine stick"] ∧
    (execute_command demo_game2 "s1" "take stick").map
        (fun p => ((Dict.lookup p.1.rooms "start").map Room.items,
          get_valid_commands p.1 "s2",
          Dict.lookup p.1.sessions "s2" == Dict.lookup demo_game2.sessions "s2"))
      = some (some [],
          some ["look", "inventory", "help", "go north", "north", "go east", "east"],
          true) := by decide

/-! ## Claim C10: multi-word item names at the public interface -/

/-- C10: `take` joins its arguments with single spaces and tests the
joined string against the room's item identifiers.  In the treasure
room, `take gold coins` misses (identifiers use underscores) and leaves
the inventory unchanged, while `take gold_coins` succeeds. -/
theorem c10_multiword_take :
    (execute_command (game_at "treasure_room" "active") "s1" "take gold coins").map
        (fun p => (p.2.response, (Dict.lookup p.1.sessions "s1").map (fun s => s.player.inventory)))
      = some ("You don't see a gold coins here.", some []) ∧
    (execute_command (game_at "treasure_room" "active") "s1" "take gold_coins").map
        (fun p => (p.2.response, (Dict.lookup p.1.sessions "s1").map (fun s => s.player.inventory)))
      = some ("You take the gold_coins.", some ["gold_coins"]) := by decide

/-! ## Claim C2: move counter (corrected: empty input does not count) -/

/-- C2 counterexample: an `execute_command` call with whitespace-only
input on an active session leaves `moves` at 0, so the move counter
does not increase by 1 on every call. -/
theorem c2_counterexample :
    (Dict.lookup demo_game.sessions "s1").map (fun s => (s.status, s.player.moves))
      = some ("active", 0) ∧
    (execute_command demo_game "s1" " ").map
        (fun p => (Dict.lookup p.1.sessions "s1").map (fun s => s.player.moves))
      = some (some 0) := by decide

/-- C2 (amended): on an active session, every `execute_command` call
whose input is non-empty after normalization increments the session's
move counter by exactly 1, whether or not the action succeeds; calls
rejected by a guard (non-active session, or empty/whitespace input)
leave the whole game state unchanged. -/
theorem c2_move_counter {g g' : AdventureGame} {session_id command : String}
    {s : GameSession} {r : CommandResult}
    (hs : Dict.lookup g.sessions session_id = some s)
    (h : execute_command g session_id command = some (g', r)) :
    (s.status = "active" → split_ws (str_trim (to_lower command)) ≠ [] →
      ∃ s', Dict.lookup g'.sessions session_id = some s' ∧
        s'.player.moves = s.player.moves + 1) ∧
    ((s.status ≠ "active" ∨ split_ws (str_trim (to_lower command)) = []) → g' = g) := by
  rcases execute_command_session_cases hs h with ⟨hguard, hg⟩ |
    ⟨hactive, verb, args, g1, resp, p1, hsplit, hv, hs1, hm, hcase⟩
  · refine ⟨?_, fun _ => hg⟩
    intro ha hsp
    rcases hguard with hng | he
    · exact absurd ha hng
    · exact absurd he hsp
  · constructor
    · intro _ _
      rcases hcase with ⟨-, -, hl⟩ | ⟨-, -, hl⟩
      · exact ⟨_, hl, by simp [hm]⟩
      · exact ⟨_, hl, by simp [hm]⟩
    · intro hguard
      rcases hguard with hng | he
      · exact absurd hactive hng
      · exact List.noConfusion (he.symm.trans hsplit)

/-- C2 witness: the amended theorem applied to a fresh session
executing `look`. -/
theorem c2_move_counter_witness :
    (Dict.lookup demo_game.sessions "s1").map
        (fun s => (s.status, s.player.moves)) = some ("active", 0) ∧
    (execute_command demo_game "s1" "look").map
        (fun p => (Dict.lookup p.1.sessions "s1").map (fun s => s.player.moves))
      = some (some 1) := by
  refine ⟨by decide, ?_⟩
  have hs : Dict.lookup demo_game.sessions "s1" = some (session_at "start" "active") := by
    decide
  cases hcall : execute_command demo_game "s1" "look" with
  | none => exact absurd hcall (by decide)
  | some p =>
    obtain ⟨g', r⟩ := p
    obtain ⟨s', hl, hm⟩ := (c2_move_counter hs hcall).1 (by decide) (by decide)
    simp [hl, hm, session_at]

/-! ## Claim C3: win invariant and status transitions -/

/-- C3: once a session's status is not `active` (in particular `won`),
`execute_command` leaves the game and the session unchanged; on an
active session the status either stays `active` or becomes `won` —
transitions never leave the specified set and never reverse. -/
theorem c3_win_invariant {g g' : AdventureGame} {session_id command : String}
    {s s' : GameSession} {r : CommandResult}
    (hs : Dict.lookup g.sessions session_id = some s)
    (h : execute_command g session_id command = some (g', r))
    (hs' : Dict.lookup g'.sessions session_id = some s') :
    (s.status ≠ "active" → g' = g ∧ s' = s) ∧
    (s'.status = s.status ∨ (s.status = "active" ∧ s'.status = "won")) := by
  rcases execute_command_session_cases hs h with ⟨hguard, hg⟩ |
    ⟨hactive, verb, args, g1, resp, p1, hsplit, hv, hs1, hm, hcase⟩
  · subst hg
    rw [hs] at hs'
    obtain rfl := (Option.some.inj hs').symm
    exact ⟨fun _ => ⟨rfl, rfl⟩, Or.inl rfl⟩
  · rcases hcase with ⟨-, -, hl⟩ | ⟨-, -, hl⟩
    · rw [hl] at hs'
      obtain rfl := (Option.some.inj hs').symm
      exact ⟨fun hna => absurd hactive hna, Or.inl rfl⟩
    · rw [hl] at hs'
      obtain rfl := (Option.some.inj hs').symm
      exact ⟨fun hna => absurd hactive hna, Or.inr ⟨hactive, rfl⟩⟩

/-- C3 witness: the invariant applied to a session already `won`: the
call returns the game object unchanged. -/
theorem c3_win_invariant_witness :
    (session_at "start" "won").status ≠ "active" ∧
    (execute_command (game_at "start" "won") "s1" "look").map
        (fun p => (Dict.lookup p.1.sessions "s1").map GameSession.status)
      = some (some "won") := by
  refine ⟨by decide, ?_⟩
  cases hcall : execute_command (game_at "start" "won") "s1" "look" with
  | none => exact absurd hcall (by decide)
  | some p =>
    obtain ⟨g', r⟩ := p
    have hs : Dict.lookup (game_at "start" "won").sessions "s1"
        = some (session_at "start" "won") := by decide
    have hs2 : (execute_command (game_at "start" "won") "s1" "look").map
        (fun p => Dict.lookup p.1.sessions "s1")
        = some (some (session_at "start" "won")) := by decide
    rw [hcall] at hs2
    have hs' : Dict.lookup g'.sessions "s1" = some (session_at "start" "won") := by
      simpa using hs2
    have hmain := (c3_win_invariant hs hcall hs').1 (by decide)
    simp [hs', session_at]

/-! ## Claim C7: empty-command handling -/

/-- C7: on an active session, input that is empty after normalization
returns the "Please enter a command." narration with the empty-command
error, and the returned game object is `g` itself — no state change at
all (in particular no move-counter increment). -/
theorem c7_empty_command {g : AdventureGame} {session_id command : String}
    {s : GameSession} {room : Room}
    (hs : Dict.lookup g.sessions session_id = some s)
    (hactive : s.status = "active")
    (hempty : split_ws (str_trim (to_lower command)) = [])
    (hroom : Dict.lookup g.rooms s.player.current_room = some room) :
    ∃ r, execute_command g session_id command = some (g, r) ∧
      r.response = "Please enter a command." ∧
      r.error = some "Empty command" := by
  have hgs : ∃ gs, get_game_state g session_id = some gs := by
    unfold get_game_state
    simp only [hs, hroom]
    exact ⟨_, rfl⟩
  have hvc : ∃ vc, get_valid_commands g session_id = some vc := by
    unfold get_valid_commands
    simp only [hs, hroom]
    exact ⟨_, rfl⟩
  obtain ⟨gs, hgs⟩ := hgs
  obtain ⟨vc, hvc⟩ := hvc
  refine ⟨{ response := "Please enter a command.", game_state := gs,
            valid_commands := vc, error := some "Empty command" }, ?_, rfl, rfl⟩
  unfold execute_command
  simp [hs, hactive, hempty, hgs, hvc]

/-- C7 witness: whitespace-only input on a fresh session. -/
theorem c7_empty_command_witness :
    split_ws (str_trim (to_lower "   ")) = [] ∧
    (execute_command demo_game "s1" "   ").map
        (fun p => (p.2.response, p.2.error))
      = some ("Please enter a command.", some "Empty command") := by
  refine ⟨by decide, ?_⟩
  obtain ⟨r, hr, hresp, herr⟩ :=
    @c7_empty_command demo_game "s1" "   " _ _
      rfl rfl (by decide) rfl
  rw [hr]
  simp [hresp, herr]

/-! ## Claim C4: unknown exits -/

/-- C4: `go D` for a direction `D` that is not an exit of the current
room narrates "You can't go D from here." and mutates nothing but the
move counter and last-action bookkeeping: the rooms table is returned
unchanged and the player keeps location and inventory (the move attempt
still counts, per C2). -/
theorem c4_invalid_direction {g : AdventureGame} {session_id direction : String}
    {s : GameSession} {room : Room}
    (hs : Dict.lookup g.sessions session_id = some s)
    (hactive : s.status = "active")
    (hroom : Dict.lookup g.rooms s.player.current_room = some room)
    (hdir : Dict.lookup room.exits direction = none)
    (hparse : split_ws (str_trim (to_lower ("go " ++ direction)))
      = ["go", direction])
    (hnotend : s.player.current_room ≠ "forest_exit") :
    ∃ r, execute_command g session_id ("go " ++ direction)
        = some ({ g with
            sessions := Dict.insert g.sessions session_id
              { s with
                player := { s.player with moves := s.player.moves + 1 }
                last_action := some (str_trim (to_lower ("go " ++ direction))) } }, r) ∧
      r.response = "You can't go " ++ direction ++ " from here." := by
  have hverb : execute_verb g session_id "go" [direction]
      = some (g, "You can't go " ++ direction ++ " from here.") := by
    unfold execute_verb move_player
    simp [hs, hroom, hdir]
  have hgs : ∃ gs, get_game_state
      { g with
        sessions := Dict.insert g.sessions session_id
          { s with
            player := { s.player with moves := s.player.moves + 1 }
            last_action := some (str_trim (to_lower ("go " ++ direction))) } }
      session_id = some gs := by
    unfold get_game_state
    simp only [Dict.lookup_insert_self, hroom]
    exact ⟨_, rfl⟩
  have hvc : ∃ vc, get_valid_commands
      { g with
        sessions := Dict.insert g.sessions session_id
          { s with
            player := { s.player with moves := s.player.moves + 1 }
            last_action := some (str_trim (to_lower ("go " ++ direction))) } }
      session_id = some vc := by
    unfold get_valid_commands
    simp only [Dict.lookup_insert_self, hroom]
    exact ⟨_, rfl⟩
  obtain ⟨gs, hgs⟩ := hgs
  obtain ⟨vc, hvc⟩ := hvc
  simp only [hactive] at hgs hvc
  refine ⟨{ response := "You can't go " ++ direction ++ " from here."
            game_state := gs, valid_commands := vc, error := none }, ?_, rfl⟩
  unfold execute_command
  simp [hs, hactive, hparse, hverb, hnotend, hgs, hvc]

/-- C4 witness: `go up` from the start room (which has only `north`
and `east` exits). -/
theorem c4_invalid_direction_witness :
    (Dict.lookup demo_game.rooms "start").map (fun rm => Dict.lookup rm.exits "up")
      = some none ∧
    (execute_command demo_game "s1" "go up").map
        (fun p => (p.2.response,
          (Dict.lookup p.1.rooms "start").map Room.items,
          (Dict.lookup p.1.sessions "s1").map
            (fun s => (s.player.current_room, s.player.inventory, s.player.moves))))
      = some ("You can't go up from here.", some ["stick"], some ("start", [], 1)) := by
  refine ⟨by decide, ?_⟩
  obtain ⟨r, hr, hresp⟩ :=
    @c4_invalid_direction demo_game "s1" "up" _ _
      rfl rfl rfl rfl (by decide) (by decide)
  rw [(by decide : ("go up" : String) = "go " ++ "up"), hr]
  simp [hresp]
  all_goals decide

/-! ## Claim C6: the win check -/

/-- C6: whenever a dispatched command on an active session ends with
the player in the terminal room `forest_exit`, the session status flips
`active` to `won`, the fixed 100-point bonus is added on top of the
score the command itself produced, and the congratulation suffix is
appended to the command's own narration. -/
theorem c6_win_check {g g' : AdventureGame} {session_id command : String}
    {s s' : GameSession} {r : CommandResult}
    (hs : Dict.lookup g.sessions session_id = some s)
    (hactive : s.status = "active")
    (hne : split_ws (str_trim (to_lower command)) ≠ [])
    (h : execute_command g session_id command = some (g', r))
    (hs' : Dict.lookup g'.sessions session_id = some s')
    (hwin : s'.player.current_room = "forest_exit") :
    s'.status = "won" ∧
    ∃ (verb : String) (args : List String) (g1 : AdventureGame)
      (resp : String) (p1 : Player),
      split_ws (str_trim (to_lower command)) = verb :: args ∧
      execute_verb g session_id verb args = some (g1, resp) ∧
      Dict.lookup g1.sessions session_id = some { s with player := p1 } ∧
      s'.player.score = p1.score + 100 ∧
      r.response
        = resp ++ "\n\nCongratulations! You've successfully completed the adventure!" := by
  rcases execute_command_session_cases hs h with ⟨hguard, hg⟩ |
    ⟨-, verb, args, g1, resp, p1, hsplit, hv, hs1, hm, hcase⟩
  · rcases hguard with hng | he
    · exact absurd hactive hng
    · exact absurd he hne
  · rcases hcase with ⟨hnw, -, hl⟩ | ⟨-, hr, hl⟩
    · rw [hl] at hs'
      obtain rfl := (Option.some.inj hs').symm
      exact absurd hwin hnw
    · rw [hl] at hs'
      obtain rfl := (Option.some.inj hs').symm
      exact ⟨rfl, verb, args, g1, resp, p1, hsplit, hv, hs1, rfl, hr⟩

/-- C6 witness: moving `east` from `forest_path` reaches the terminal
room; the status flips to `won` and the +100 bonus lands on top of the
+5 exploration points. -/
theorem c6_win_check_witness :
    (Dict.lookup (game_at "forest_path" "active").sessions "s1").map GameSession.status
      = some "active" ∧
    (execute_command (game_at "forest_path" "active") "s1" "east").map
        (fun p => (Dict.lookup p.1.sessions "s1").map
          (fun s => (s.status, s.player.score, s.player.current_room)))
      = some (some ("won", 105, "forest_exit")) := by
  refine ⟨by decide, ?_⟩
  cases hcall : execute_command (game_at "forest_path" "active") "s1" "east" with
  | none => exact absurd hcall (by decide)
  | some p =>
    obtain ⟨g', r⟩ := p
    have hs2 : (execute_command (game_at "forest_path" "active") "s1" "east").map
        (fun q => Dict.lookup q.1.sessions "s1")
        = some (some won_session) := by decide
    rw [hcall] at hs2
    have hs' : Dict.lookup g'.sessions "s1" = some won_session := by
      simpa using hs2
    have hmain := @c6_win_check (game_at "forest_path" "active") g' "s1" "east"
      (session_at "forest_path" "active") won_session r rfl rfl (by decide)
      hcall hs' rfl
    simp [hs', hmain.1, won_session]

/-! ## Claim C5: take/drop round trip -/

theorem intercalate_singleton (sep x : String) :
    String.intercalate sep [x] = x := rfl

/-- C5: on an active session, `take x` (for a portable item `x` present
in the current room) followed by `drop x` restores the room's item
multiset and the inventory multiset to their pre-take contents, while
the +10 pickup points are kept — the score is not restored. -/
theorem c5_take_drop_roundtrip {g : AdventureGame} {session_id x : String}
    {s : GameSession} {room : Room} {itm : Item}
    (hs : Dict.lookup g.sessions session_id = some s)
    (hactive : s.status = "active")
    (hroom : Dict.lookup g.rooms s.player.current_room = some room)
    (hin : x ∈ room.items)
    (hitm : Dict.lookup g.items x = some itm)
    (hport : itm.portable = true)
    (hnotend : s.player.current_room ≠ "forest_exit")
    (hparse1 : split_ws (str_trim (to_lower ("take " ++ x))) = ["take", x])
    (hparse2 : split_ws (str_trim (to_lower ("drop " ++ x))) = ["drop", x]) :
    ∃ r1 r2,
      execute_command g session_id ("take " ++ x)
        = some (take_state g session_id x s room, r1) ∧
      execute_command (take_state g session_id x s room) session_id ("drop " ++ x)
        = some (drop_state g session_id x s room, r2) ∧
      r1.response = "You take the " ++ x ++ "." ∧
      r2.response = "You drop the " ++ x ++ "." ∧
      ∃ s2 room2,
        Dict.lookup (drop_state g session_id x s room).sessions session_id = some s2 ∧
        Dict.lookup (drop_state g session_id x s room).rooms s.player.current_room
          = some room2 ∧
        room2.items.Perm room.items ∧
        s2.player.inventory.Perm s.player.inventory ∧
        s2.player.current_room = s.player.current_room ∧
        s2.player.score = s.player.score + 10 := by
  have hperm_room : (room.items.erase x ++ [x]).Perm room.items :=
    (List.perm_append_singleton x _).trans (List.perm_cons_erase hin).symm
  have hperm_inv : ((s.player.inventory ++ [x]).erase x).Perm s.player.inventory := by
    have h1 : (s.player.inventory ++ [x]).Perm (x :: s.player.inventory) :=
      List.perm_append_singleton x _
    have h2 := h1.erase x
    rwa [List.erase_cons_head] at h2
  have htake : ∃ r1, execute_command g session_id ("take " ++ x)
      = some (take_state g session_id x s room, r1) ∧
      r1.response = "You take the " ++ x ++ "." := by
    have hgs : ∃ gs, get_game_state (take_state g session_id x s room) session_id
        = some gs := by
      unfold get_game_state take_state
      simp only [Dict.lookup_insert_self]
      exact ⟨_, rfl⟩
    have hvc : ∃ vc, get_valid_commands (take_state g session_id x s room) session_id
        = some vc := by
      unfold get_valid_commands take_state
      simp only [Dict.lookup_insert_self]
      exact ⟨_, rfl⟩
    obtain ⟨gs, hgs⟩ := hgs
    obtain ⟨vc, hvc⟩ := hvc
    simp only [hactive, take_state] at hgs hvc
    refine ⟨{ response := "You take the " ++ x ++ "."
              game_state := gs, valid_commands := vc, error := none }, ?_, rfl⟩
    unfold execute_command execute_verb take_item take_state
    simp [hs, hactive, hroom, hin, hitm, hport, hnotend, hparse1,
      intercalate_singleton, Dict.lookup_insert_self, Dict.insert_insert_self,
      hgs, hvc]
  obtain ⟨r1, htake, hresp1⟩ := htake
  have hdrop : ∃ r2, execute_command (take_state g session_id x s room) session_id
      ("drop " ++ x)
      = some (drop_state g session_id x s room, r2) ∧
      r2.response = "You drop the " ++ x ++ "." := by
    have hgs : ∃ gs, get_game_state (drop_state g session_id x s room) session_id
        = some gs := by
      unfold get_game_state drop_state
      simp only [Dict.lookup_insert_self]
      exact ⟨_, rfl⟩
    have hvc : ∃ vc, get_valid_commands (drop_state g session_id x s room) session_id
        = some vc := by
      unfold get_valid_commands drop_state
      simp only [Dict.lookup_insert_self]
      exact ⟨_, rfl⟩
    obtain ⟨gs, hgs⟩ := hgs
    obtain ⟨vc, hvc⟩ := hvc
    simp only [hactive, drop_state] at hgs hvc
    refine ⟨{ response := "You drop the " ++ x ++ "."
              game_state := gs, valid_commands := vc, error := none }, ?_, rfl⟩
    unfold execute_command execute_verb drop_item take_state drop_state
    simp [hs, hactive, hnotend, hparse2, intercalate_singleton,
      Dict.lookup_insert_self, Dict.insert_insert_self, hgs, hvc]
  obtain ⟨r2, hdrop, hresp2⟩ := hdrop
  refine ⟨r1, r2, htake, hdrop, hresp1, hresp2, ?_⟩
  refine ⟨{ s with
      player :=
        { s.player with
          inventory := (s.player.inventory ++ [x]).erase x
          score := s.player.score + 10
          moves := s.player.moves + 1 + 1 }
      last_action := some (str_trim (to_lower ("drop " ++ x))) },
    { room with items := room.items.erase x ++ [x] },
    ?_, ?_, hperm_room, hperm_inv, rfl, rfl⟩
  · unfold drop_state
    exact Dict.lookup_insert_self _ _ _
  · unfold drop_state
    exact Dict.lookup_insert_self _ _ _

/-- C5 witness: taking and dropping the stick in the start room
restores room items and inventory; the 10 pickup points remain. -/
theorem c5_take_drop_roundtrip_witness :
    (Dict.lookup (game_at "start" "active").rooms "start").map Room.items = some ["stick"] ∧
    ((execute_command (game_at "start" "active") "s1" "take stick").bind
        (fun p => execute_command p.1 "s1" "drop stick")).map
        (fun p => ((Dict.lookup p.1.rooms "start").map Room.items,
          (Dict.lookup p.1.sessions "s1").map
            (fun s => (s.player.inventory, s.player.score))))
      = some (some ["stick"], some ([], 10)) := by
  refine ⟨by decide, ?_⟩
  obtain ⟨r1, r2, h1, h2, -, -, -⟩ :=
    @c5_take_drop_roundtrip (game_at "start" "active") "s1" "stick"
      (session_at "start" "active") _ _
      rfl rfl rfl (by decide) rfl rfl (by decide) (by decide) (by decide)
  rw [(by decide : ("take stick" : String) = "take " ++ "stick"),
    (by decide : ("drop stick" : String) = "drop " ++ "stick"), h1]
  rw [Option.some_bind, h2]
  simp [drop_state, session_at]
  decide

/-! ## Claim C9: exploration points and unbounded back-and-forth score -/

theorem east_west_trip_step_fresh (sc mv : Nat) (la : Option String) :
    ∃ g1 r1 r2,
      execute_command (trip_game sc mv la create_game_world_rooms) "s1" "east"
        = some (g1, r1) ∧
      execute_command g1 "s1" "west"
        = some (trip_game (sc + 5 + 5) (mv + 1 + 1) (some "west") trip_rooms, r2) :=
  ⟨_, _, _, rfl, rfl⟩

theorem east_west_trip_step_again (sc mv : Nat) (la : Option String) :
    ∃ g1 r1 r2,
      execute_command (trip_game sc mv la trip_rooms) "s1" "east"
        = some (g1, r1) ∧
      execute_command g1 "s1" "west"
        = some (trip_game (sc + 5 + 5) (mv + 1 + 1) (some "west") trip_rooms, r2) :=
  ⟨_, _, _, rfl, rfl⟩

theorem east_west_trips_spec (n : Nat) :
    ∃ la rs, (rs = create_game_world_rooms ∨ rs = trip_rooms) ∧
      east_west_trips demo_game "s1" n
        = some (trip_game (10 * n) (2 * n) la rs) := by
  induction n with
  | zero => exact ⟨none, create_game_world_rooms, Or.inl rfl, rfl⟩
  | succ n ih =>
    obtain ⟨la, rs, hrs, hn⟩ := ih
    have e1 : 10 * n + 5 + 5 = 10 * (n + 1) := by ring
    have e2 : 2 * n + 1 + 1 = 2 * (n + 1) := by ring
    rcases hrs with rfl | rfl
    · obtain ⟨g1, r1, r2, h1, h2⟩ := east_west_trip_step_fresh (10 * n) (2 * n) la
      refine ⟨some "west", trip_rooms, Or.inr rfl, ?_⟩
      simp only [east_west_trips, hn, h1, h2, e1, e2]
    · obtain ⟨g1, r1, r2, h1, h2⟩ := east_west_trip_step_again (10 * n) (2 * n) la
      refine ⟨some "west", trip_rooms, Or.inr rfl, ?_⟩
      simp only [east_west_trips, hn, h1, h2, e1, e2]

/-- C9: exploration points are granted on every successful move with no
check of the destination's visited flag (below the destination is even
required to be already visited, and the +5 still lands), so iterating
east/west round trips from the start room grows the score without
bound: exactly 10 points per round trip, `10 * n` after `n` of them. -/
theorem c9_exploration_score :
    (∀ (g g1 : AdventureGame) (session_id direction dest resp : String)
        (s : GameSession) (room destRoom : Room),
      Dict.lookup g.sessions session_id = some s →
      Dict.lookup g.rooms s.player.current_room = some room →
      Dict.lookup room.exits direction = some dest →
      Dict.lookup g.rooms dest = some destRoom →
      destRoom.visited = true →
      move_player g session_id direction = some (g1, resp) →
      ∃ s1, Dict.lookup g1.sessions session_id = some s1 ∧
        s1.player.score = s.player.score + 5) ∧
    (∀ n : Nat, ∃ g', east_west_trips demo_game "s1" n = some g' ∧
      (Dict.lookup g'.sessions "s1").map (fun s => s.player.score)
        = some (10 * n)) := by
  constructor
  · intro g g1 session_id direction dest resp s room destRoom
      hs hroom hexit hdest hvis h
    unfold move_player at h
    simp only [hs, hroom, hexit, hdest] at h
    split at h
    · exact Option.noConfusion h
    · simp only [Option.some.injEq, Prod.mk.injEq] at h
      obtain ⟨h1, -⟩ := h
      subst h1
      exact ⟨_, Dict.lookup_insert_self _ _ _, rfl⟩
  · intro n
    obtain ⟨la, rs, hrs, hn⟩ := east_west_trips_spec n
    exact ⟨_, hn, rfl⟩

/-- C9 witness: moving east onto the already-visited `forest_path`
still adds the 5 exploration points (10 → 15). -/
theorem c9_exploration_score_witness :
    (Dict.lookup trip_rooms "forest_path").map Room.visited = some true ∧
    (move_player (trip_game 10 2 (some "west") trip_rooms) "s1" "east").map
        (fun p => (Dict.lookup p.1.sessions "s1").map (fun s => s.player.score))
      = some (some 15) := by
  refine ⟨by decide, ?_⟩
  cases hm : move_player (trip_game 10 2 (some "west") trip_rooms) "s1" "east" with
  | none => exact absurd hm (by decide)
  | some p =>
    obtain ⟨g1, resp⟩ := p
    obtain ⟨s1, hl, hsc⟩ := c9_exploration_score.1
      (trip_game 10 2 (some "west") trip_rooms) g1 "s1" "east" "forest_path"
      resp _ _ _ rfl rfl rfl rfl rfl hm
    simp [hl, hsc, trip_game]

/-! ## Claim C8: reasoning adapter fallback (corrected: total failure
yields the Ollama canned message, not `look`) -/

/-- C8 counterexample: with the OpenAI provider raising and the Ollama
service unreachable (total provider failure), the adapter's suggested
action is the Ollama layer's canned readiness message, not the safe
default `look`. -/
theorem c8_counterexample :
    (analyze_game_state ⟨true, Except.error "Request timed out"⟩
        ⟨Except.error "connection refused", Except.error "connection refused"⟩
        json_loads_plain_text).suggested_action = ollama_fallback_message ∧
    ollama_fallback_message ≠ "look" := by decide

/-- C8 (amended): the adapter never raises past its layer
(`generate_response` always returns `.ok`); when the configured primary
provider raises, it falls back to the Ollama provider; and on total
provider failure the suggested action is the Ollama layer's canned
readiness message — the `look` default sits in an error branch that
provider failures cannot reach. -/
theorem c8_adapter_fallback (st : OpenAIState) (env : OllamaEnv)
    (json_loads : String → Option Analysis) :
    (∃ s, generate_response st env = .ok s) ∧
    (∀ e, st.configured = true → st.outcome = .error e →
      generate_response st env = .ok (generate_ollama_response env)) ∧
    (∀ eo eh, (st.configured = false ∨ st.outcome = .error eo) →
      env.health = .error eh →
      json_loads ollama_fallback_message = none →
      (analyze_game_state st env json_loads).suggested_action
        = ollama_fallback_message) := by
  refine ⟨?_, ?_, ?_⟩
  · unfold generate_response
    cases hc : st.configured with
    | false => exact ⟨generate_ollama_response env, rfl⟩
    | true =>
      cases ho : st.outcome with
      | ok s => exact ⟨s, by simp [ho]⟩
      | error e => exact ⟨generate_ollama_response env, by simp [ho]⟩
  · intro e hc ho
    simp [generate_response, hc, ho]
  · intro eo eh hfail hh hparse
    have hgen : generate_response st env = .ok ollama_fallback_message := by
      have hollama : generate_ollama_response env = ollama_fallback_message := by
        simp [generate_ollama_response, hh]
      rcases hfail with hc | ho
      · simp [generate_response, hc, hollama]
      · cases hc : st.configured <;> simp [generate_response, hc, ho, hollama]
    simp only [analyze_game_state, hgen, hparse]
    decide

/-- C8 witness: the amended theorem applied at a concrete total-failure
input. -/
theorem c8_adapter_fallback_witness :
    (analyze_game_state ⟨true, Except.error "timeout"⟩
        ⟨Except.error "conn", Except.error "conn"⟩
        json_loads_plain_text).suggested_action = ollama_fallback_message :=
  (c8_adapter_fallback ⟨true, Except.error "timeout"⟩
      ⟨Except.error "conn", Except.error "conn"⟩ json_loads_plain_text).2.2
    "timeout" "conn" (Or.inr rfl) rfl rfl

end Aivta
